import Mathlib

/-!
Verification of the unsafe-anchor classifier in
`src/lighthouse-core/audits/dobetterweb/external-anchors-use-rel-noopener.js`.

The audit is a pure filter chain over a list of anchor records.  The URL
library it calls (`lib/url-shim.js`) is not part of the sources, so the
embedding takes the URL parser as a parameter `parseHost : String → Option
String` returning the host component on success and `none` when parsing
throws.  All anchor attributes are strings; an absent attribute is the empty
string, matching how the JavaScript code tests them with `!anchor.href` and
`anchor.href || ...`.
-/

/-- An input anchor record (artifact `AnchorElements`). -/
structure AnchorElement where
  href : String
  target : String
  rel : String
  outerHTML : String
deriving Repr, DecidableEq

/-- A row of the failing-anchors table produced by the final `.map`. -/
structure AnchorSummary where
  href : String
  target : String
  rel : String
  outerHTML : String
deriving Repr, DecidableEq

/-- The audit product: `score`, `failingAnchors` (the table rows, also the
`extendedInfo` value) and `warnings`. -/
structure AuditProduct where
  score : Nat
  failingAnchors : List AnchorSummary
  warnings : List String
deriving Repr, DecidableEq

/-- Whether `pat` is a prefix of `s` (character lists). -/
def isSubAt : List Char → List Char → Bool
  | [], _ => true
  | _ :: _, [] => false
  | p :: ps, c :: cs => p == c && isSubAt ps cs

/-- Whether `pat` occurs as a contiguous sublist of `s`. -/
def occursIn (pat : List Char) : List Char → Bool
  | [] => isSubAt pat []
  | c :: cs => isSubAt pat (c :: cs) || occursIn pat cs

/-- JavaScript `s.includes(pat)`: substring containment. -/
def jsIncludes (s pat : String) : Bool :=
  occursIn pat.data s.data

/-- JavaScript `s.startsWith(pat)`. -/
def jsStartsWith (s pat : String) : Bool :=
  isSubAt pat.data s.data

/-- JavaScript `s.toLowerCase()` (ASCII-adequate for the uses here). -/
def jsToLowerCase (s : String) : String :=
  String.mk (s.data.map Char.toLower)

/-- JavaScript `s || dflt` for strings: the empty string is falsy. -/
def jsOr (s dflt : String) : String :=
  if s == "" then dflt else s

/-- The formatted `UIStrings.warning` message with `anchorHTML` substituted. -/
def warningMessage (anchorHTML : String) : String :=
  "Unable to determine the destination for anchor (" ++ anchorHTML ++
    "). If not used as a hyperlink, consider removing target=_blank."

/-- First filter of the chain: target must be the literal `_blank` and the
rel string must contain neither `noopener` nor `noreferrer` as a substring,
mirroring the two negated `rel.includes` calls. -/
def stageA (anchor : AnchorElement) : Bool :=
  anchor.target == "_blank" && !(jsIncludes anchor.rel "noopener") &&
    !(jsIncludes anchor.rel "noreferrer")

/-- The keep-decision of the second filter: `new URL(anchor.href).host !==
pageHost`, and `true` (kept) when parsing throws. -/
def stageB (parseHost : String → Option String) (pageHost : String)
    (anchor : AnchorElement) : Bool :=
  match parseHost anchor.href with
  | some h => h != pageHost
  | none => true

/-- Third filter of the chain: keep the anchor when its `href` is empty or
its lower-cased `href` starts with the literal `http`. -/
def stageC (anchor : AnchorElement) : Bool :=
  anchor.href == "" || jsStartsWith (jsToLowerCase anchor.href) "http"

/-- The second filter together with its side effect: it returns the kept
anchors and the warnings pushed for anchors whose `href` failed to parse,
both in input order. -/
def filterStageB (parseHost : String → Option String) (pageHost : String) :
    List AnchorElement → List AnchorElement × List String
  | [] => ([], [])
  | a :: rest =>
    let res := filterStageB parseHost pageHost rest
    match parseHost a.href with
    | some h => (if h != pageHost then a :: res.1 else res.1, res.2)
    | none => (a :: res.1, warningMessage a.outerHTML :: res.2)

/-- The final `.map`: defaulting of absent attributes. -/
def toSummary (anchor : AnchorElement) : AnchorSummary :=
  { href := jsOr anchor.href "Unknown"
    target := jsOr anchor.target ""
    rel := jsOr anchor.rel ""
    outerHTML := jsOr anchor.outerHTML "" }

/-- The `audit` static method.  `none` models the exception thrown by
`new URL(artifacts.URL.finalUrl)` propagating to the caller; in every other
case a product is returned.  `Number(failingAnchors.length === 0)` is `1`
when the list is empty and `0` otherwise. -/
def audit (parseHost : String → Option String) (finalUrl : String)
    (anchorElements : List AnchorElement) : Option AuditProduct :=
  match parseHost finalUrl with
  | none => none
  | some pageHost =>
    let afterA := anchorElements.filter stageA
    let resB := filterStageB parseHost pageHost afterA
    let afterC := resB.1.filter stageC
    let failingAnchors := afterC.map toSummary
    some { score := if failingAnchors.isEmpty then 1 else 0
           failingAnchors := failingAnchors
           warnings := resB.2 }

/-- The anchors that survive all three filters, in input order; the failing
table is their image under `toSummary`. -/
def failingSources (parseHost : String → Option String) (pageHost : String)
    (anchors : List AnchorElement) : List AnchorElement :=
  ((anchors.filter stageA).filter (stageB parseHost pageHost)).filter stageC

/-- The warnings produced in a run: one per stage-A survivor whose `href`
fails to parse, in input order. -/
def unparsableWarnings (parseHost : String → Option String)
    (anchors : List AnchorElement) : List String :=
  ((anchors.filter stageA).filter (fun a => (parseHost a.href).isNone)).map
    (fun a => warningMessage a.outerHTML)

/-- Scans the input for the first `://` and returns what follows it. -/
def afterSchemeSep : List Char → Option (List Char)
  | ':' :: '/' :: '/' :: rest => some rest
  | _ :: rest => afterSchemeSep rest
  | [] => none

/-- Modelled from the spec: stands in for the URL library
(`lib/url-shim.js`), which is not under the sources.  The spec only says the
classifier should "attempt to parse its `href` as a URL" and use the host
component, failing fatally on a malformed page URL.  An absolute URL of the
shape `scheme://host/...` with an alphabetic first character and a non-empty
host parses to that host; everything else fails to parse. -/
def parseHostModel (s : String) : Option String :=
  match s.data with
  | [] => none
  | c :: rest =>
    if c.isAlpha then
      match afterSchemeSep (c :: rest) with
      | none => none
      | some r =>
        match r.takeWhile (fun x => x ≠ '/') with
        | [] => none
        | host => some (String.mk host)
    else none

/-- Concrete anchor: unsafe attributes, unparsable non-http `href`. -/
def exBlankUnparsable : AnchorElement :=
  { href := "not a url"
    target := "_blank"
    rel := ""
    outerHTML := "<a target=_blank href=notaurl>" }

/-- Concrete anchor: unsafe attributes, protocol-relative `href`, which real
URL constructors reject without a base. -/
def exProtocolRelative : AnchorElement :=
  { href := "//b.com/x"
    target := "_blank"
    rel := "nofollow"
    outerHTML := "<a href=x target=_blank rel=nofollow>" }

/-- Concrete anchor: unsafe cross-origin anchor that does get flagged. -/
def exFailing : AnchorElement :=
  { href := "https://b.com/x"
    target := "_blank"
    rel := ""
    outerHTML := "<a href=y target=_blank>" }

lemma filterStageB_eq (parseHost : String → Option String) (pageHost : String)
    (l : List AnchorElement) :
    filterStageB parseHost pageHost l =
      (l.filter (stageB parseHost pageHost),
       (l.filter (fun a => (parseHost a.href).isNone)).map
         (fun a => warningMessage a.outerHTML)) := by
  induction l with
  | nil => rfl
  | cons a rest ih =>
    cases hpa : parseHost a.href with
    | none =>
      simp [filterStageB, ih, hpa, List.filter_cons, stageB]
    | some h =>
      by_cases hne : h = pageHost <;>
        simp [filterStageB, ih, hpa, List.filter_cons, stageB, hne]

lemma isEmpty_map (f : AnchorElement → AnchorSummary) (l : List AnchorElement) :
    (l.map f).isEmpty = l.isEmpty := by
  cases l <;> rfl

/-- The audit, when the page URL parses, returns exactly the table of
`failingSources` summaries and the `unparsableWarnings`. -/
lemma audit_eq (parseHost : String → Option String) (finalUrl pageHost : String)
    (anchors : List AnchorElement) (hpage : parseHost finalUrl = some pageHost) :
    audit parseHost finalUrl anchors = some
      { score := if (failingSources parseHost pageHost anchors).isEmpty then 1 else 0
        failingAnchors := (failingSources parseHost pageHost anchors).map toSummary
        warnings := unparsableWarnings parseHost anchors } := by
  unfold audit
  rw [hpage]
  simp only [filterStageB_eq, failingSources, unparsableWarnings, isEmpty_map]

lemma mem_failingSources (parseHost : String → Option String) (pageHost : String)
    (anchors : List AnchorElement) (a : AnchorElement) :
    a ∈ failingSources parseHost pageHost anchors ↔
      a ∈ anchors ∧ stageA a = true ∧ stageB parseHost pageHost a = true ∧
        stageC a = true := by
  simp only [failingSources, List.mem_filter, and_assoc]

example : parseHostModel "https://a.com/" = some "a.com" := by decide
example : parseHostModel "not a url" = none := by decide
example : parseHostModel "" = none := by decide
example : parseHostModel "//b.com/x" = none := by decide
example : audit parseHostModel "https://a.com/" [exBlankUnparsable] =
    some { score := 1
           failingAnchors := []
           warnings := [warningMessage exBlankUnparsable.outerHTML] } := by decide
example : audit parseHostModel "https://a.com/" [exFailing] =
    some { score := 0
           failingAnchors := [{ href := "https://b.com/x", target := "_blank",
                                rel := "", outerHTML := "<a href=y target=_blank>" }]
           warnings := [] } := by decide

/-- Concrete anchor: would be unsafe but carries `rel` noopener. -/
def exNoopener : AnchorElement :=
  { href := "https://b.com/x"
    target := "_blank"
    rel := "noopener"
    outerHTML := "<a href=z target=_blank rel=noopener>" }

/-- Concrete anchor: same host as the audited page. -/
def exSameHost : AnchorElement :=
  { href := "https://a.com/page"
    target := "_blank"
    rel := ""
    outerHTML := "<a href=page target=_blank>" }

/-- Concrete anchor: mailto link, excluded by the scheme filter. -/
def exMailto : AnchorElement :=
  { href := "mailto:x@b.com"
    target := "_blank"
    rel := ""
    outerHTML := "<a href=mail target=_blank>" }

/-- Concrete anchor: no `href` at all. -/
def exNoHref : AnchorElement :=
  { href := ""
    target := "_blank"
    rel := ""
    outerHTML := "<a target=_blank>" }

/-- C2: an anchor whose target is not the literal `_blank`, or whose rel
string contains the substring `noopener` or the substring `noreferrer`,
never appears in `failingAnchors`, whatever its other attributes: it is not
among the surviving sources whose summaries make up the table. -/
theorem audit_safe_target_or_rel_never_failing
    (parseHost : String → Option String) (finalUrl pageHost : String)
    (anchors : List AnchorElement) (a : AnchorElement)
    (hpage : parseHost finalUrl = some pageHost)
    (hsafe : a.target ≠ "_blank" ∨ jsIncludes a.rel "noopener" = true ∨
      jsIncludes a.rel "noreferrer" = true) :
    a ∉ failingSources parseHost pageHost anchors ∧
    ∃ p, audit parseHost finalUrl anchors = some p ∧
      p.failingAnchors = (failingSources parseHost pageHost anchors).map toSummary := by
  refine ⟨?_, ⟨_, audit_eq parseHost finalUrl pageHost anchors hpage, rfl⟩⟩
  intro hmem
  have hA := ((mem_failingSources parseHost pageHost anchors a).1 hmem).2.1
  simp only [stageA, Bool.and_eq_true, Bool.not_eq_true', beq_iff_eq] at hA
  rcases hsafe with h | h | h
  · exact h hA.1.1
  · exact absurd hA.1.2 (by simp [h])
  · exact absurd hA.2 (by simp [h])

/-- C2 witness. -/
theorem audit_safe_target_or_rel_never_failing_witness :
    exNoopener ∉ failingSources parseHostModel "a.com" [exNoopener] ∧
    ∃ p, audit parseHostModel "https://a.com/" [exNoopener] = some p ∧
      p.failingAnchors =
        (failingSources parseHostModel "a.com" [exNoopener]).map toSummary :=
  audit_safe_target_or_rel_never_failing parseHostModel "https://a.com/" "a.com"
    [exNoopener] exNoopener (by decide) (Or.inr (Or.inl (by decide)))

/-- C3: an anchor whose `href` parses to a URL whose host equals the host of
the page final URL never appears in `failingAnchors`. -/
theorem audit_same_host_never_failing
    (parseHost : String → Option String) (finalUrl pageHost : String)
    (anchors : List AnchorElement) (a : AnchorElement)
    (hpage : parseHost finalUrl = some pageHost)
    (hsame : parseHost a.href = some pageHost) :
    a ∉ failingSources parseHost pageHost anchors ∧
    ∃ p, audit parseHost finalUrl anchors = some p ∧
      p.failingAnchors = (failingSources parseHost pageHost anchors).map toSummary := by
  refine ⟨?_, ⟨_, audit_eq parseHost finalUrl pageHost anchors hpage, rfl⟩⟩
  intro hmem
  have hB := ((mem_failingSources parseHost pageHost anchors a).1 hmem).2.2.1
  simp [stageB, hsame] at hB

/-- C3 witness. -/
theorem audit_same_host_never_failing_witness :
    exSameHost ∉ failingSources parseHostModel "a.com" [exSameHost] ∧
    ∃ p, audit parseHostModel "https://a.com/" [exSameHost] = some p ∧
      p.failingAnchors =
        (failingSources parseHostModel "a.com" [exSameHost]).map toSummary :=
  audit_same_host_never_failing parseHostModel "https://a.com/" "a.com"
    [exSameHost] exSameHost (by decide) (by decide)

/-- C4: an anchor with a non-empty `href` whose lower-cased value does not
start with `http` never appears in `failingAnchors`, even when it meets all
the unsafe conditions of the earlier filters. -/
theorem audit_non_http_scheme_never_failing
    (parseHost : String → Option String) (finalUrl pageHost : String)
    (anchors : List AnchorElement) (a : AnchorElement)
    (hpage : parseHost finalUrl = some pageHost)
    (hne : a.href ≠ "")
    (hhttp : jsStartsWith (jsToLowerCase a.href) "http" = false) :
    a ∉ failingSources parseHost pageHost anchors ∧
    ∃ p, audit parseHost finalUrl anchors = some p ∧
      p.failingAnchors = (failingSources parseHost pageHost anchors).map toSummary := by
  refine ⟨?_, ⟨_, audit_eq parseHost finalUrl pageHost anchors hpage, rfl⟩⟩
  intro hmem
  have hC := ((mem_failingSources parseHost pageHost anchors a).1 hmem).2.2.2
  simp [stageC, hne, hhttp] at hC

/-- C4 witness: a mailto anchor that is unsafe in every other respect. -/
theorem audit_non_http_scheme_never_failing_witness :
    exMailto ∉ failingSources parseHostModel "a.com" [exMailto] ∧
    ∃ p, audit parseHostModel "https://a.com/" [exMailto] = some p ∧
      p.failingAnchors =
        (failingSources parseHostModel "a.com" [exMailto]).map toSummary :=
  audit_non_http_scheme_never_failing parseHostModel "https://a.com/" "a.com"
    [exMailto] exMailto (by decide) (by decide) (by decide)

/-- The product the audit returns on the single-anchor input `exFailing`. -/
def exFailingProduct : AuditProduct :=
  { score := 0
    failingAnchors := [{ href := "https://b.com/x", target := "_blank",
                         rel := "", outerHTML := "<a href=y target=_blank>" }]
    warnings := [] }

/-- C5: whenever the audit returns a product, its numeric score is 1 exactly
when `failingAnchors` is empty and 0 exactly when it is not. -/
theorem audit_score_iff_empty
    (parseHost : String → Option String) (finalUrl : String)
    (anchors : List AnchorElement) (p : AuditProduct)
    (h : audit parseHost finalUrl anchors = some p) :
    (p.score = 1 ↔ p.failingAnchors = []) ∧
    (p.score = 0 ↔ p.failingAnchors ≠ []) := by
  cases hp : parseHost finalUrl with
  | none =>
    rw [audit, hp] at h
    exact Option.noConfusion h
  | some pageHost =>
    rw [audit_eq parseHost finalUrl pageHost anchors hp, Option.some.injEq] at h
    subst h
    cases hfs : failingSources parseHost pageHost anchors <;> simp [hfs]

/-- C5 witness. -/
theorem audit_score_iff_empty_witness :
    (exFailingProduct.score = 1 ↔ exFailingProduct.failingAnchors = []) ∧
    (exFailingProduct.score = 0 ↔ exFailingProduct.failingAnchors ≠ []) :=
  audit_score_iff_empty parseHostModel "https://a.com/" [exFailing]
    exFailingProduct (by decide)

/-- C6: the summary of every surviving anchor keeps its attributes, with
`href` replaced by the literal `Unknown` when empty and the other three kept
verbatim (an absent attribute is the empty string, and defaulting an empty
string to the empty string is the identity); in particular an anchor with
target `_blank`, empty rel and no `href` lands in `failingAnchors` with
summary `href` equal to `Unknown`. -/
theorem audit_summary_fields
    (parseHost : String → Option String) (finalUrl pageHost html : String)
    (anchors : List AnchorElement)
    (hpage : parseHost finalUrl = some pageHost)
    (hempty : parseHost "" = none)
    (hmem : ({ href := "", target := "_blank", rel := "", outerHTML := html } :
      AnchorElement) ∈ anchors) :
    (∀ a : AnchorElement,
      (toSummary a).href = (if a.href = "" then "Unknown" else a.href) ∧
      (toSummary a).target = a.target ∧
      (toSummary a).rel = a.rel ∧
      (toSummary a).outerHTML = a.outerHTML) ∧
    ∃ p, audit parseHost finalUrl anchors = some p ∧
      p.failingAnchors = (failingSources parseHost pageHost anchors).map toSummary ∧
      ({ href := "Unknown", target := "_blank", rel := "", outerHTML := html } :
        AnchorSummary) ∈ p.failingAnchors := by
  constructor
  · intro a
    by_cases h : a.href = "" <;>
      by_cases ht : a.target = "" <;>
        by_cases hr : a.rel = "" <;>
          by_cases ho : a.outerHTML = "" <;>
            simp [toSummary, jsOr, h, ht, hr, ho]
  · refine ⟨_, audit_eq parseHost finalUrl pageHost anchors hpage, rfl, ?_⟩
    have hsrc : ({ href := "", target := "_blank", rel := "", outerHTML := html } :
        AnchorElement) ∈ failingSources parseHost pageHost anchors := by
      rw [mem_failingSources]
      exact ⟨hmem, rfl, by simp [stageB, hempty], rfl⟩
    have hmap := List.mem_map_of_mem toSummary hsrc
    have heq : toSummary { href := "", target := "_blank", rel := "", outerHTML := html } =
        { href := "Unknown", target := "_blank", rel := "", outerHTML := html } := by
      by_cases ho : html = "" <;> simp [toSummary, jsOr, ho]
    rwa [heq] at hmap

/-- C6 witness. -/
theorem audit_summary_fields_witness :
    (∀ a : AnchorElement,
      (toSummary a).href = (if a.href = "" then "Unknown" else a.href) ∧
      (toSummary a).target = a.target ∧
      (toSummary a).rel = a.rel ∧
      (toSummary a).outerHTML = a.outerHTML) ∧
    ∃ p, audit parseHostModel "https://a.com/" [exNoHref] = some p ∧
      p.failingAnchors =
        (failingSources parseHostModel "a.com" [exNoHref]).map toSummary ∧
      ({ href := "Unknown", target := "_blank", rel := "",
         outerHTML := "<a target=_blank>" } : AnchorSummary) ∈ p.failingAnchors :=
  audit_summary_fields parseHostModel "https://a.com/" "a.com" "<a target=_blank>"
    [exNoHref] (by decide) (by decide) (by decide)

/-- C7: the audit fails (raises) exactly when the page final URL itself
fails to parse; whenever the page URL parses, a product is returned, so an
unparsable anchor `href` never escalates into an exception. -/
theorem audit_exception_iff_page_unparsable
    (parseHost : String → Option String) (finalUrl : String)
    (anchors : List AnchorElement) :
    audit parseHost finalUrl anchors = none ↔ parseHost finalUrl = none := by
  cases hp : parseHost finalUrl with
  | none =>
    rw [audit, hp]
    simp
  | some pageHost =>
    rw [audit_eq parseHost finalUrl pageHost anchors hp]
    simp

/-- C8: every element of `failingAnchors` is the summary of an input anchor
that passes all three filter predicates, and the surviving anchors are a
sublist of the input (stable filtering, order preserved). -/
theorem audit_failing_sound_and_ordered
    (parseHost : String → Option String) (finalUrl pageHost : String)
    (anchors : List AnchorElement)
    (hpage : parseHost finalUrl = some pageHost) :
    ∃ p, audit parseHost finalUrl anchors = some p ∧
      p.failingAnchors = (failingSources parseHost pageHost anchors).map toSummary ∧
      (failingSources parseHost pageHost anchors).Sublist anchors ∧
      ∀ a ∈ failingSources parseHost pageHost anchors,
        stageA a = true ∧ stageB parseHost pageHost a = true ∧ stageC a = true := by
  refine ⟨_, audit_eq parseHost finalUrl pageHost anchors hpage, rfl, ?_, ?_⟩
  · exact ((List.filter_sublist _).trans (List.filter_sublist _)).trans
      (List.filter_sublist _)
  · intro a ha
    exact ((mem_failingSources parseHost pageHost anchors a).1 ha).2

/-- C8 witness. -/
theorem audit_failing_sound_and_ordered_witness :
    ∃ p, audit parseHostModel "https://a.com/" [exFailing] = some p ∧
      p.failingAnchors =
        (failingSources parseHostModel "a.com" [exFailing]).map toSummary ∧
      (failingSources parseHostModel "a.com" [exFailing]).Sublist [exFailing] ∧
      ∀ a ∈ failingSources parseHostModel "a.com" [exFailing],
        stageA a = true ∧ stageB parseHostModel "a.com" a = true ∧
          stageC a = true :=
  audit_failing_sound_and_ordered parseHostModel "https://a.com/" "a.com"
    [exFailing] (by decide)

/-- C9: the audit is a pure function of the page URL, the anchor list and
the URL parser: two invocations on equal inputs return equal products, in
particular equal `failingAnchors` and equal `warnings`, in order and
content. -/
theorem audit_deterministic
    (parseHost₁ parseHost₂ : String → Option String) (finalUrl₁ finalUrl₂ : String)
    (anchors₁ anchors₂ : List AnchorElement)
    (hp : parseHost₁ = parseHost₂) (hu : finalUrl₁ = finalUrl₂)
    (hl : anchors₁ = anchors₂) :
    audit parseHost₁ finalUrl₁ anchors₁ = audit parseHost₂ finalUrl₂ anchors₂ := by
  rw [hp, hu, hl]

/-- C9 witness. -/
theorem audit_deterministic_witness :
    audit parseHostModel "https://a.com/" [exFailing] =
      audit parseHostModel "https://a.com/" [exFailing] :=
  audit_deterministic parseHostModel parseHostModel "https://a.com/"
    "https://a.com/" [exFailing] [exFailing] rfl rfl rfl

/-- C1 counterexample: an anchor with target `_blank`, empty rel and the
unparsable `href` value `not a url` gets exactly one warning, yet
`failingAnchors` is empty, because the third filter drops every non-empty
`href` that does not start with `http`.  So an anchor with unparsable `href`
does not, in general, appear in `failingAnchors`. -/
theorem unparsable_href_in_failing_counterexample :
    parseHostModel exBlankUnparsable.href = none ∧
    audit parseHostModel "https://a.com/" [exBlankUnparsable] =
      some { score := 1
             failingAnchors := []
             warnings := [warningMessage exBlankUnparsable.outerHTML] } := by
  decide

/-- C1 amended: for every anchor that passes the first filter (target
`_blank`, rel without `noopener` and without `noreferrer`) and whose `href`
fails to parse, the run appends exactly one warning for it; the warnings
list is precisely one `warningMessage` per such anchor in input order, and
the message contains the anchor `outerHTML`.  The anchor itself reaches
`failingAnchors` exactly when it also passes the third filter, that is when
its `href` is empty or starts, lower-cased, with `http`. -/
theorem audit_stageA_unparsable_href
    (parseHost : String → Option String) (finalUrl pageHost : String)
    (anchors : List AnchorElement) (a : AnchorElement)
    (hpage : parseHost finalUrl = some pageHost)
    (hmem : a ∈ anchors) (hA : stageA a = true)
    (hhref : parseHost a.href = none) :
    ∃ p, audit parseHost finalUrl anchors = some p ∧
      p.warnings = unparsableWarnings parseHost anchors ∧
      warningMessage a.outerHTML ∈ p.warnings ∧
      (∃ pre suf : String, warningMessage a.outerHTML = pre ++ a.outerHTML ++ suf) ∧
      p.failingAnchors = (failingSources parseHost pageHost anchors).map toSummary ∧
      (a ∈ failingSources parseHost pageHost anchors ↔ stageC a = true) := by
  refine ⟨_, audit_eq parseHost finalUrl pageHost anchors hpage, rfl, ?_, ?_, rfl, ?_⟩
  · unfold unparsableWarnings
    apply List.mem_map_of_mem
    rw [List.mem_filter]
    exact ⟨List.mem_filter.2 ⟨hmem, hA⟩, by simp [hhref]⟩
  · exact ⟨"Unable to determine the destination for anchor (",
      "). If not used as a hyperlink, consider removing target=_blank.", rfl⟩
  · rw [mem_failingSources]
    constructor
    · exact fun h => h.2.2.2
    · intro hC
      exact ⟨hmem, hA, by simp [stageB, hhref], hC⟩

/-- C1 amended witness. -/
theorem audit_stageA_unparsable_href_witness :
    ∃ p, audit parseHostModel "https://a.com/" [exBlankUnparsable] = some p ∧
      p.warnings = unparsableWarnings parseHostModel [exBlankUnparsable] ∧
      warningMessage exBlankUnparsable.outerHTML ∈ p.warnings ∧
      (∃ pre suf : String, warningMessage exBlankUnparsable.outerHTML =
        pre ++ exBlankUnparsable.outerHTML ++ suf) ∧
      p.failingAnchors =
        (failingSources parseHostModel "a.com" [exBlankUnparsable]).map toSummary ∧
      (exBlankUnparsable ∈ failingSources parseHostModel "a.com" [exBlankUnparsable] ↔
        stageC exBlankUnparsable = true) :=
  audit_stageA_unparsable_href parseHostModel "https://a.com/" "a.com"
    [exBlankUnparsable] exBlankUnparsable (by decide) (by decide) (by decide)
    (by decide)

/-- C10: a run can pass with warnings.  The protocol-relative anchor is
unsafe in the first two filters, so the cross-origin stage records a warning
for its unparsable `href`; the scheme filter then drops it, leaving
`failingAnchors` empty and the score at 1 while `warnings` is non-empty. -/
theorem audit_warning_with_pass_score :
    audit parseHostModel "https://a.com/" [exProtocolRelative] =
      some { score := 1
             failingAnchors := []
             warnings := [warningMessage exProtocolRelative.outerHTML] } ∧
    exProtocolRelative.target = "_blank" ∧
    jsIncludes exProtocolRelative.rel "noopener" = false ∧
    jsIncludes exProtocolRelative.rel "noreferrer" = false ∧
    exProtocolRelative.href ≠ "" ∧
    parseHostModel exProtocolRelative.href = none ∧
    jsStartsWith (jsToLowerCase exProtocolRelative.href) "http" = false := by
  decide
